import Mathlib

/-!
# Verification of the Auto-Onboarding Orchestrator strategy resolver

Shallow embedding of the repository's monitoring-strategy resolver
(`app/permission.py`), its Redis persistence layer (`app/redis_client.py`)
and the Prometheus scrape-config mutation (`app/prometheus_dynamic.py`).

Network and file-system effects are modelled by records of call-site
outcomes: each HTTP request or TCP connect issued by the code corresponds
to one field of a `World` (resp. `PromWorld`) value, `none` standing for a
transport failure (any exception raised by `requests`/`socket`).  Python
dictionaries are modelled as association lists over an inductive type of
Python values.
-/

namespace AutoOnboard

/-! ## String utilities modelling Python primitives -/

/-- Substring test on character lists: `needle` occurs inside `hay`.
Models the Python expression `needle in hay` on strings. -/
def containsSub (hay needle : List Char) : Bool :=
  if needle.isPrefixOf hay then true
  else
    match hay with
    | [] => false
    | _ :: t => containsSub t needle

/-- `strContains hay needle` models Python `needle in hay`. -/
def strContains (hay needle : String) : Bool :=
  containsSub hay.toList needle.toList

/-- Whitespace stripped by Python `float()` / `str.strip`. -/
def pyIsSpaceChar (c : Char) : Bool :=
  c = ' ' || c = '\t' || c = '\n' || c = '\r' || c.toNat = 11 || c.toNat = 12

/-- ASCII lower-casing of one character (the header markers and stored
strings are ASCII). -/
def pyCharLower (c : Char) : Char :=
  if 'A' ≤ c && c ≤ 'Z' then Char.ofNat (c.toNat + 32) else c

/-- ASCII upper-casing of one character. -/
def pyCharUpper (c : Char) : Char :=
  if 'a' ≤ c && c ≤ 'z' then Char.ofNat (c.toNat - 32) else c

/-- Model of Python `s.lower()` on ASCII strings. -/
def pyLower (s : String) : String := String.mk (s.toList.map pyCharLower)

/-- Model of Python `s.upper()` on ASCII strings. -/
def pyUpper (s : String) : String := String.mk (s.toList.map pyCharUpper)

/-- Strip leading and trailing whitespace. -/
def listTrim (cs : List Char) : List Char :=
  ((cs.dropWhile pyIsSpaceChar).reverse.dropWhile pyIsSpaceChar).reverse

/-- A single-quote character, as a string (used by the Python `repr` model). -/
def pyQuote : String := String.singleton (Char.ofNat 39)

/-- Model of Python `repr` on the plain strings occurring in this code base
(no embedded quotes or escapes): the string wrapped in single quotes. -/
def pyReprStr (s : String) : String := pyQuote ++ s ++ pyQuote

/-- Model of Python `str(headers)` for a dict-like headers object:
`\x7b'k1': 'v1', 'k2': 'v2'\x7d`. -/
def headersRepr (hs : List (String × String)) : String :=
  "\x7b" ++
    String.intercalate ", " (hs.map fun p => pyReprStr p.1 ++ ": " ++ pyReprStr p.2) ++
  "\x7d"

/-- ASCII decimal digit test (model of the digit test used by `str.isdigit`
on the ASCII strings this system stores). -/
def pyIsDigitChar (c : Char) : Bool := '0' ≤ c && c ≤ '9'

/-- Model of Python `str.isdigit`: non-empty and all digits. -/
def pyIsDigit (s : String) : Bool := !s.toList.isEmpty && s.toList.all pyIsDigitChar

/-- Numeric value of a digit string (model of Python `int(v)` on a string
that passed `isdigit`). -/
def digitsToNat (cs : List Char) : Nat :=
  cs.foldl (fun a c => a * 10 + (c.toNat - 48)) 0

/-- Drop one optional leading sign character. -/
def pyDropSign : List Char → List Char
  | '+' :: t => t
  | '-' :: t => t
  | cs => cs

/-- Accepts the unsigned decimal part of the CPython `float()` grammar
(already lowercased): `digits [. digits] [e [sign] digits]` with at least
one mantissa digit.  Numeric-literal underscores are not modelled; none of
the strings this system stores contain them. -/
def pyMantissaExp (cs : List Char) : Bool :=
  let p1 := cs.span pyIsDigitChar
  let q :=
    match p1.2 with
    | '.' :: t => (t.span pyIsDigitChar, true)
    | _ => (([], p1.2), false)
  let fracPart := q.1.1
  let rest := q.1.2
  if p1.1.isEmpty && fracPart.isEmpty then false
  else
    match rest with
    | [] => true
    | 'e' :: t =>
        let t2 := pyDropSign t
        !t2.isEmpty && t2.all pyIsDigitChar
    | _ => false

/-- Model of "`float(s)` succeeds" in CPython: optional surrounding
whitespace, optional sign, then either `inf`/`infinity`/`nan`
(case-insensitive) or a decimal number with optional exponent. -/
def pyFloatParses (s : String) : Bool :=
  let cs := pyDropSign (listTrim (s.toList.map pyCharLower))
  cs = "inf".toList || cs = "infinity".toList || cs = "nan".toList || pyMantissaExp cs

/-! ## Python values and dictionaries -/

/-- A Python value as stored in the decision dictionaries of this system.
Floats only ever arise from `get_monitoring_strategy` re-parsing a stored
string; since no claim depends on float arithmetic, a float is abstracted
by the source string it was parsed from. -/
inductive PyVal where
  | bool (b : Bool)
  | str (s : String)
  | int (n : Nat)
  | float (src : String)
  | none
  | list (xs : List String)
deriving DecidableEq

/-- Model of Python `str(v)` on the values above (`str(True) = "True"`,
`str(None) = "None"`, `str` of a list of strings is its `repr`). -/
def pyStr : PyVal → String
  | .bool true => "True"
  | .bool false => "False"
  | .str s => s
  | .int n => toString n
  | .float src => src
  | .none => "None"
  | .list xs => "[" ++ String.intercalate ", " (xs.map pyReprStr) ++ "]"

/-! ## HTTP world: one field per network call site of `permission.py` -/

/-- Outcome of one HTTP request: status, body text and response headers. -/
structure HttpResp where
  status : Nat
  body : String
  headers : List (String × String)
deriving DecidableEq

/-- The network behaviour of one target during a single resolution call.
Each field is the outcome of the corresponding request or connect issued
by `detect_monitoring_strategy` and its probe helpers; `none` means the
call raised (connection refused, DNS failure, timeout, TLS failure, ...),
and a `Bool` field records whether a TCP connect succeeded. -/
structure World where
  /-- `requests.get(base_url, timeout=2)` — the exploratory header fetch. -/
  getBase : Option HttpResp
  /-- `requests.get(f"(base_url)/metrics")` inside `check_prometheus_metrics`. -/
  getMetricsProm : Option HttpResp
  /-- `requests.get(f"(base_url)/metrics")` inside `check_prometheus_auth`. -/
  getMetricsAuth : Option HttpResp
  /-- `requests.post(f"(base_url)/v1/traces")` inside `check_otlp_http`. -/
  postTraces : Option HttpResp
  /-- `requests.post(f"(base_url)/v1/metrics")` inside `check_otlp_http`. -/
  postMetricsOtlp : Option HttpResp
  /-- `socket.create_connection((host, 4317))` succeeds. -/
  connect4317 : Bool
  /-- `socket.create_connection((host, 8125))` succeeds. -/
  connect8125 : Bool
  /-- `requests.get(url, timeout=5)` inside `check_blackbox_http`. -/
  getBlackbox : Option HttpResp
deriving DecidableEq

/-! ## Probes (`permission.py` lines 14–108) -/

/-- `check_prometheus_metrics`: 200 and `"HELP" in r.text`; any exception
yields `False`. -/
def check_prometheus_metrics (w : World) : Bool :=
  match w.getMetricsProm with
  | some r => r.status == 200 && strContains r.body "HELP"
  | none => false

/-- `check_prometheus_auth`: status in `[401, 403]`; exception → `False`. -/
def check_prometheus_auth (w : World) : Bool :=
  match w.getMetricsAuth with
  | some r => [401, 403].contains r.status
  | none => false

/-- `check_otlp_http`: POST to `/v1/traces` then `/v1/metrics`; `True` on
the first status in `[200, 404, 415]`, exceptions skip to the next path. -/
def check_otlp_http (w : World) : Bool :=
  (match w.postTraces with
   | some r => [200, 404, 415].contains r.status
   | none => false) ||
  (match w.postMetricsOtlp with
   | some r => [200, 404, 415].contains r.status
   | none => false)

/-- `check_otlp_grpc`: TCP connect to port 4317; exception → `False`. -/
def check_otlp_grpc (w : World) : Bool := w.connect4317

/-- `check_statsd`: TCP connect to port 8125; exception → `False`. -/
def check_statsd (w : World) : Bool := w.connect8125

/-- `detect_kubernetes_env`: `"x-kubernetes" in str(headers).lower()`. -/
def detect_kubernetes_env (headers : List (String × String)) : Bool :=
  strContains (pyLower (headersRepr headers)) "x-kubernetes"

/-- `detect_cloud_provider`: search `str(headers).lower()` for `x-amzn`,
then `x-goog`, then `x-ms`. -/
def detect_cloud_provider (headers : List (String × String)) : Option String :=
  let headerStr := pyLower (headersRepr headers)
  if strContains headerStr "x-amzn" then some "aws"
  else if strContains headerStr "x-goog" then some "gcp"
  else if strContains headerStr "x-ms" then some "azure"
  else none

/-- `check_blackbox_http`: status strictly below 500; exception → `False`. -/
def check_blackbox_http (w : World) : Bool :=
  match w.getBlackbox with
  | some r => r.status < 500
  | none => false

/-- The headers the resolver works with: the exploratory GET's headers, or
`\x7b\x7d` (empty dict) when that request raised
(`except Exception: headers = \x7b\x7d`). -/
def resolverHeaders (w : World) : List (String × String) :=
  match w.getBase with
  | some r => r.headers
  | none => []

/-! ## Decision dictionaries returned by `detect_monitoring_strategy` -/

/-- Return value of the `check_prometheus_metrics` branch. -/
def promDecision : List (String × PyVal) :=
  [("monitorable", .bool true), ("strategy", .str "prometheus"),
   ("confidence", .str "high"), ("details", .str "/metrics endpoint detected")]

/-- Return value of the `check_prometheus_auth` branch. -/
def promAuthDecision : List (String × PyVal) :=
  [("monitorable", .bool true), ("strategy", .str "prometheus-auth"),
   ("confidence", .str "medium"), ("details", .str "/metrics exists but requires auth")]

/-- Return value of the `check_otlp_http` branch. -/
def otlpHttpDecision : List (String × PyVal) :=
  [("monitorable", .bool true), ("strategy", .str "opentelemetry-http"),
   ("confidence", .str "high"), ("details", .str "OTLP HTTP endpoint detected")]

/-- Return value of the `check_otlp_grpc` branch. -/
def otlpGrpcDecision : List (String × PyVal) :=
  [("monitorable", .bool true), ("strategy", .str "opentelemetry-grpc"),
   ("confidence", .str "high"), ("details", .str "OTLP gRPC endpoint detected on port 4317")]

/-- Return value of the `check_statsd` branch. -/
def statsdDecision : List (String × PyVal) :=
  [("monitorable", .bool true), ("strategy", .str "statsd"),
   ("confidence", .str "medium"), ("details", .str "StatsD-compatible agent detected")]

/-- Return value of the `detect_kubernetes_env` branch. -/
def k8sDecision : List (String × PyVal) :=
  [("monitorable", .bool true), ("strategy", .str "kubernetes-auto"),
   ("confidence", .str "medium"), ("details", .str "Kubernetes environment detected")]

/-- Return value of the cloud-provider branch for provider `c`
(`f"(cloud)-cloud-metrics"`, `f"(cloud.upper()) headers detected"`). -/
def cloudDecision (c : String) : List (String × PyVal) :=
  [("monitorable", .bool true), ("strategy", .str (c ++ "-cloud-metrics")),
   ("confidence", .str "low"), ("details", .str (pyUpper c ++ " headers detected"))]

/-- Return value of the `check_blackbox_http` branch. -/
def blackboxDecision : List (String × PyVal) :=
  [("monitorable", .bool true), ("strategy", .str "blackbox-http"),
   ("confidence", .str "low"), ("details", .str "Only uptime / latency monitoring possible")]

/-- The four remediation suggestions of the fallback decision. -/
def nextStepsList : List String :=
  ["Expose /metrics", "Enable OpenTelemetry SDK",
   "Deploy OpenTelemetry Collector", "Use blackbox exporter"]

/-- The fallback (unmonitorable) decision. -/
def fallbackDecision : List (String × PyVal) :=
  [("monitorable", .bool false), ("strategy", .none),
   ("confidence", .str "none"),
   ("details", .str "No metrics or telemetry endpoints detected"),
   ("next_steps", .list nextStepsList)]

/-- `detect_monitoring_strategy` (`permission.py` lines 112–198): the
sequential probe chain, returning the decision of the first probe that
succeeds, or the fallback decision. -/
def detect_monitoring_strategy (w : World) : List (String × PyVal) :=
  if check_prometheus_metrics w then promDecision
  else if check_prometheus_auth w then promAuthDecision
  else if check_otlp_http w then otlpHttpDecision
  else if check_otlp_grpc w then otlpGrpcDecision
  else if check_statsd w then statsdDecision
  else if detect_kubernetes_env (resolverHeaders w) then k8sDecision
  else
    match detect_cloud_provider (resolverHeaders w) with
    | some cloud => cloudDecision cloud
    | none =>
        if check_blackbox_http w then blackboxDecision
        else fallbackDecision

/-- Every decision the resolver can produce. -/
def allDecisions : List (List (String × PyVal)) :=
  [promDecision, promAuthDecision, otlpHttpDecision, otlpGrpcDecision,
   statsdDecision, k8sDecision, cloudDecision "aws", cloudDecision "gcp",
   cloudDecision "azure", blackboxDecision, fallbackDecision]

/-! ## The spec's priority table (spec §4.1), for the refinement claim C1 -/

/-- Follows the spec's words: the priority table of §4.1, one row per
candidate strategy, each row yielding `(strategy, confidence)` when its
probe succeeds.  The cloud row's strategy is `(provider)-cloud-metrics`. -/
def specPriorityRows : List (World → Option (String × String)) :=
  [fun w => if check_prometheus_metrics w then some ("prometheus", "high") else none,
   fun w => if check_prometheus_auth w then some ("prometheus-auth", "medium") else none,
   fun w => if check_otlp_http w then some ("opentelemetry-http", "high") else none,
   fun w => if check_otlp_grpc w then some ("opentelemetry-grpc", "high") else none,
   fun w => if check_statsd w then some ("statsd", "medium") else none,
   fun w => if detect_kubernetes_env (resolverHeaders w) then some ("kubernetes-auto", "medium") else none,
   fun w =>
     match detect_cloud_provider (resolverHeaders w) with
     | some c => some (c ++ "-cloud-metrics", "low")
     | none => none,
   fun w => if check_blackbox_http w then some ("blackbox-http", "low") else none]

/-- Follows the spec's words: evaluate the rows in order and return the
`(strategy, confidence)` of the first row whose probe succeeds (`none`
when every probe fails). -/
def specFirstHit (w : World) : Option (String × String) :=
  (specPriorityRows.filterMap fun row => row w).head?

/-! ## Redis persistence (`redis_client.py`) -/

/-- `_serialize_strategy`: every value becomes a string — booleans as
`"True"`/`"False"`, `None` as `"None"`, anything else via `str(v)`. -/
def _serialize_strategy (d : List (String × PyVal)) : List (String × String) :=
  d.map fun kv =>
    match kv.2 with
    | .bool b => (kv.1, if b then "True" else "False")
    | .none => (kv.1, "None")
    | v => (kv.1, pyStr v)

/-- Redis `HSET` of a single field: overwrite the field in place when it
exists, otherwise append it. -/
def hsetField (h : List (String × String)) (f v : String) : List (String × String) :=
  if h.any fun p => p.1 = f then
    h.map fun p => if p.1 = f then (f, v) else p
  else h ++ [(f, v)]

/-- Redis `HSET` with a `mapping=` argument: set each field in turn.
Fields not mentioned in the mapping are left untouched. -/
def hsetMapping (h : List (String × String)) (m : List (String × String)) :
    List (String × String) :=
  m.foldl (fun acc kv => hsetField acc kv.1 kv.2) h

/-- `save_monitoring_strategy`: `r.hset(f"app:(app_name)",
mapping=_serialize_strategy(strategy_info))`, modelled on the hash stored
under the one key in question. -/
def save_monitoring_strategy (h : List (String × String)) (d : List (String × PyVal)) :
    List (String × String) :=
  hsetMapping h (_serialize_strategy d)

/-- The value-decoding loop of `get_monitoring_strategy`: `"True"` and
`"False"` back to booleans, `"None"` back to `None`, digit strings via
`int(v)`, then `float(v)` if it parses, otherwise the string itself. -/
def deserializeVal (v : String) : PyVal :=
  if v = "True" then .bool true
  else if v = "False" then .bool false
  else if v = "None" then .none
  else if pyIsDigit v then .int (digitsToNat v.toList)
  else if pyFloatParses v then .float v
  else .str v

/-- `get_monitoring_strategy`: `hgetall`, `None` when the hash is empty
(`if not data`), otherwise the decoded field map. -/
def get_monitoring_strategy (h : List (String × String)) :
    Option (List (String × PyVal)) :=
  if h.isEmpty then none
  else some (h.map fun kv => (kv.1, deserializeVal kv.2))

/-! ## Prometheus scrape-config mutation (`prometheus_dynamic.py`) -/

/-- The scrape-config dictionary built by `configure_prometheus_scrape`. -/
structure ScrapeConfig where
  job_name : String
  metrics_path : String
  targets : List String
  auth_required : Bool
deriving DecidableEq

/-- A job entry of the `scrape_configs` list of the Prometheus config
file.  Only `job_name` is inspected by the duplicate check; `basic_auth`
is present exactly when the scrape config required auth. -/
structure JobEntry where
  job_name : String
  metrics_path : String
  targets : List String
  basic_auth : Option (String × String)
deriving DecidableEq

/-- Outcomes of the effectful calls made by `add_prometheus_scrape_job`:
whether the config read and write succeed (an exception anywhere is caught
by the enclosing `try`), and the reload POST's outcome (`none` = the
request raised). -/
structure PromWorld where
  readOk : Bool
  writeOk : Bool
  reloadResp : Option Nat
deriving DecidableEq

/-- The job entry appended by `add_prometheus_scrape_job`:
`basic_auth` with the placeholder credentials iff `auth_required`. -/
def mkJobEntry (sc : ScrapeConfig) : JobEntry :=
  { job_name := sc.job_name
    metrics_path := sc.metrics_path
    targets := sc.targets
    basic_auth := if sc.auth_required then some ("PROM_USER", "PROM_PASS") else none }

/-- `add_prometheus_scrape_job`, returning the success flag together with
the resulting `scrape_configs` list of the config file.  Read failure,
a duplicate `job_name` and write failure leave the file unchanged and
yield `False`; after a successful write the job is persisted and the flag
reports whether the reload POST returned 200. -/
def add_prometheus_scrape_job (pw : PromWorld) (file : List JobEntry)
    (sc : ScrapeConfig) : Bool × List JobEntry :=
  if !pw.readOk then (false, file)
  else if (file.map JobEntry.job_name).contains sc.job_name then (false, file)
  else if !pw.writeOk then (false, file)
  else
    match pw.reloadResp with
    | some 200 => (true, file ++ [mkJobEntry sc])
    | _ => (false, file ++ [mkJobEntry sc])

/-- `configure_prometheus_scrape`: build the scrape config for the parsed
hostname (`job_name = f"auto_(hostname)"`, a `None` hostname printing as
`"None"`), run `add_prometheus_scrape_job`, and return the scrape config
(the Python function discards the success flag; the embedding also
returns the flag and file state to keep the effect observable). -/
def configure_prometheus_scrape (pw : PromWorld) (file : List JobEntry)
    (hostname : Option String) (auth : Bool) :
    ScrapeConfig × (Bool × List JobEntry) :=
  let hn := match hostname with | some h => h | Option.none => "None"
  let sc : ScrapeConfig :=
    { job_name := "auto_" ++ hn, metrics_path := "/metrics"
      targets := [hn], auth_required := auth }
  (sc, add_prometheus_scrape_job pw file sc)

/-! ## Observations on decision dictionaries (for the data-model invariant) -/

/-- A strategy is present when the `strategy` field holds a string (the
schema's `strategy: Optional[str]` is non-`None`). -/
def strategyPresent (d : List (String × PyVal)) : Bool :=
  match d.lookup "strategy" with
  | some (.str _) => true
  | _ => false

/-- The decision's `monitorable` field is `True`. -/
def monitorableFlag (d : List (String × PyVal)) : Bool :=
  d.lookup "monitorable" == some (.bool true)

/-- The decision's `confidence` field is the string `"none"`. -/
def confidenceIsNone (d : List (String × PyVal)) : Bool :=
  d.lookup "confidence" == some (.str "none")

/-- The decision carries a `next_steps` field. -/
def nextStepsPresent (d : List (String × PyVal)) : Bool :=
  (d.lookup "next_steps").isSome

/-! ## Concrete worlds used to exercise the theorems -/

/-- A target for which every network call fails (for instance a malformed
target such as `http://` with no host, where every `requests`/`socket`
call raises). -/
def allFailWorld : World := ⟨none, none, none, none, none, false, false, none⟩

/-- A target whose `/metrics` endpoint answers 200 with a
metrics-exposition marker; everything else fails. -/
def promWorld : World :=
  { allFailWorld with getMetricsProm := some ⟨200, "# HELP foo", []⟩ }

/-- A target whose `/metrics` endpoint answers 200 with a marker on both
`/metrics` GETs (the same probe outcome observed by both probes). -/
def promBothWorld : World :=
  { allFailWorld with
      getMetricsProm := some ⟨200, "# HELP foo", []⟩
      getMetricsAuth := some ⟨200, "# HELP foo", []⟩ }

/-! ## Helper lemmas -/

/-- `detect_cloud_provider` returns nothing or one of the three fixed
providers. -/
theorem cloud_provider_cases (hs : List (String × String)) :
    detect_cloud_provider hs = none ∨ detect_cloud_provider hs = some "aws" ∨
    detect_cloud_provider hs = some "gcp" ∨ detect_cloud_provider hs = some "azure" := by
  unfold detect_cloud_provider
  dsimp only
  split_ifs <;> simp

/-- Every resolution result is one of the eleven decision dictionaries. -/
theorem detect_mem_allDecisions (w : World) :
    detect_monitoring_strategy w ∈ allDecisions := by
  unfold detect_monitoring_strategy
  rcases cloud_provider_cases (resolverHeaders w) with h | h | h | h <;>
    rw [h] <;> split_ifs <;> simp [allDecisions]

/-! ## Lookup semantics of the Redis hash model -/

/-- Replacing field `k` in place leaves lookups of other fields alone. -/
theorem lookup_replace_ne (k v f : String) (hfk : f ≠ k)
    (h : List (String × String)) :
    (h.map fun p => if p.1 = k then (k, v) else p).lookup f = h.lookup f := by
  induction h with
  | nil => rfl
  | cons p t ih =>
    obtain ⟨pk, pv⟩ := p
    by_cases hpk : pk = k
    · subst hpk
      simp [List.lookup_cons, beq_false_of_ne hfk, ih]
    · by_cases hfp : f = pk
      · subst hfp
        simp [hpk, List.lookup_cons]
      · simp [hpk, List.lookup_cons, beq_false_of_ne hfp, ih]

/-- If some field has key `k`, replacing it in place makes lookups of `k`
return the new value. -/
theorem lookup_replace_eq (k v : String) (h : List (String × String))
    (hany : h.any (fun p => p.1 = k) = true) :
    (h.map fun p => if p.1 = k then (k, v) else p).lookup k = some v := by
  induction h with
  | nil => simp at hany
  | cons p t ih =>
    obtain ⟨pk, pv⟩ := p
    by_cases hpk : pk = k
    · subst hpk
      simp [List.lookup_cons]
    · have ht : t.any (fun p => p.1 = k) = true := by
        simpa [List.any_cons, hpk] using hany
      simp [hpk, List.lookup_cons, beq_false_of_ne (fun he : k = pk => hpk he.symm), ih ht]

/-- If no field has key `k`, appending `(k, v)` adds a fresh field. -/
theorem lookup_append_new (k v f : String) (h : List (String × String))
    (hk : h.any (fun p => p.1 = k) = false) :
    (h ++ [(k, v)]).lookup f = if f = k then some v else h.lookup f := by
  induction h with
  | nil =>
    by_cases hfk : f = k
    · subst hfk; simp [List.lookup_cons]
    · simp [List.lookup_cons, beq_false_of_ne hfk, hfk]
  | cons p t ih =>
    obtain ⟨pk, pv⟩ := p
    simp only [List.any_cons, Bool.or_eq_false_iff, decide_eq_false_iff_not] at hk
    have ht := ih (by simpa using hk.2)
    by_cases hfp : f = pk
    · subst hfp
      have hfk : f ≠ k := hk.1
      simp [List.cons_append, List.lookup_cons, hfk]
    · simp [List.cons_append, List.lookup_cons, beq_false_of_ne hfp, ht]

/-- Lookup after a single-field `HSET`: the set field has the new value,
every other field is unchanged. -/
theorem lookup_hsetField (h : List (String × String)) (k v f : String) :
    (hsetField h k v).lookup f = if f = k then some v else h.lookup f := by
  unfold hsetField
  cases hany : h.any (fun p => p.1 = k) with
  | true =>
    rw [if_pos rfl]
    by_cases hfk : f = k
    · subst hfk
      simp [lookup_replace_eq _ _ _ hany]
    · simp [lookup_replace_ne _ _ _ hfk, hfk]
  | false =>
    rw [if_neg (by simp)]
    exact lookup_append_new _ _ _ _ hany

/-- A key absent from an association list looks up to `none`. -/
theorem lookup_eq_none_of_not_mem_keys (f : String) (t : List (String × String))
    (hf : f ∉ t.map Prod.fst) : t.lookup f = none := by
  induction t with
  | nil => rfl
  | cons p s ih =>
    obtain ⟨pk, pv⟩ := p
    simp only [List.map_cons, List.mem_cons] at hf
    push_neg at hf
    simp [List.lookup_cons, beq_false_of_ne hf.1, ih hf.2]

/-- Lookup after `HSET` with a mapping whose keys are distinct: fields of
the mapping take their mapped value, all other fields keep the previous
value of the hash. -/
theorem lookup_hsetMapping (m : List (String × String)) :
    ∀ (h : List (String × String)) (f : String), (m.map Prod.fst).Nodup →
      (hsetMapping h m).lookup f =
        ((m.lookup f).orElse fun _ => h.lookup f) := by
  induction m with
  | nil => intro h f _; simp [hsetMapping, Option.orElse]
  | cons kv t ih =>
    intro h f hnd
    obtain ⟨k, v⟩ := kv
    simp only [List.map_cons, List.nodup_cons] at hnd
    have step : hsetMapping h ((k, v) :: t) = hsetMapping (hsetField h k v) t := rfl
    rw [step, ih (hsetField h k v) f hnd.2, lookup_hsetField]
    by_cases hfk : f = k
    · subst hfk
      have hnone : t.lookup f = none :=
        lookup_eq_none_of_not_mem_keys f t hnd.1
      simp [List.lookup_cons, hnone, Option.orElse]
    · simp [List.lookup_cons, beq_false_of_ne hfk, hfk]

/-- Serialization preserves the keys of the dictionary. -/
theorem serialize_keys (d : List (String × PyVal)) :
    (_serialize_strategy d).map Prod.fst = d.map Prod.fst := by
  induction d with
  | nil => rfl
  | cons kv t ih =>
    obtain ⟨k, v⟩ := kv
    cases v <;> simp [_serialize_strategy] at ih ⊢ <;> exact ih

/-- Lookup commutes with the per-value decoding of
`get_monitoring_strategy`. -/
theorem lookup_map_decode (h : List (String × String)) (f : String) :
    (h.map fun kv => (kv.1, deserializeVal kv.2)).lookup f =
      (h.lookup f).map deserializeVal := by
  induction h with
  | nil => rfl
  | cons p t ih =>
    obtain ⟨pk, pv⟩ := p
    by_cases hfp : f = pk
    · subst hfp; simp [List.lookup_cons]
    · simp [List.lookup_cons, beq_false_of_ne hfp, ih]

/-! ## Claim theorems -/

/-- C1: for every target, `detect_monitoring_strategy` evaluates the
candidate probes in the fixed priority order prometheus, prometheus-auth,
opentelemetry-http, opentelemetry-grpc, statsd, kubernetes-auto,
cloud-metrics, blackbox-http and returns the decision of the first probe
that succeeds, with that row's strategy and confidence (the first hit of
the spec's priority table); in particular, whenever the `/metrics` probe
succeeds with HTTP 200 and a metrics-exposition marker, the result is
strategy `prometheus` with confidence `high`, regardless of the outcomes
of every lower-priority probe. -/
theorem c1_priority_first_probe_wins (w : World) :
    (match specFirstHit w with
     | some sc =>
         (detect_monitoring_strategy w).lookup "strategy" = some (.str sc.1) ∧
         (detect_monitoring_strategy w).lookup "confidence" = some (.str sc.2)
     | none => (detect_monitoring_strategy w).lookup "strategy" = some .none) ∧
    (check_prometheus_metrics w = true →
      (detect_monitoring_strategy w).lookup "strategy" = some (.str "prometheus") ∧
      (detect_monitoring_strategy w).lookup "confidence" = some (.str "high")) := by
  cases h1 : check_prometheus_metrics w with
  | true =>
      simp [detect_monitoring_strategy, specFirstHit, specPriorityRows, h1,
            promDecision, List.lookup]
  | false =>
  cases h2 : check_prometheus_auth w with
  | true =>
      simp [detect_monitoring_strategy, specFirstHit, specPriorityRows, h1, h2,
            promAuthDecision, List.lookup]
  | false =>
  cases h3 : check_otlp_http w with
  | true =>
      simp [detect_monitoring_strategy, specFirstHit, specPriorityRows, h1, h2, h3,
            otlpHttpDecision, List.lookup]
  | false =>
  cases h4 : check_otlp_grpc w with
  | true =>
      simp [detect_monitoring_strategy, specFirstHit, specPriorityRows, h1, h2, h3, h4,
            otlpGrpcDecision, List.lookup]
  | false =>
  cases h5 : check_statsd w with
  | true =>
      simp [detect_monitoring_strategy, specFirstHit, specPriorityRows, h1, h2, h3, h4, h5,
            statsdDecision, List.lookup]
  | false =>
  cases h6 : detect_kubernetes_env (resolverHeaders w) with
  | true =>
      simp [detect_monitoring_strategy, specFirstHit, specPriorityRows, h1, h2, h3, h4, h5, h6,
            k8sDecision, List.lookup]
  | false =>
  cases hc : detect_cloud_provider (resolverHeaders w) with
  | some c =>
      simp [detect_monitoring_strategy, specFirstHit, specPriorityRows, h1, h2, h3, h4, h5, h6,
            hc, cloudDecision, List.lookup]
  | none =>
  cases h8 : check_blackbox_http w with
  | true =>
      simp [detect_monitoring_strategy, specFirstHit, specPriorityRows, h1, h2, h3, h4, h5, h6,
            hc, h8, blackboxDecision, List.lookup]
  | false =>
      simp [detect_monitoring_strategy, specFirstHit, specPriorityRows, h1, h2, h3, h4, h5, h6,
            hc, h8, fallbackDecision, List.lookup]

/-- Witness for C1: a target whose `/metrics` probe succeeds resolves to
`prometheus` with confidence `high`. -/
theorem c1_priority_first_probe_wins_witness :
    (detect_monitoring_strategy promWorld).lookup "strategy" = some (.str "prometheus") ∧
    (detect_monitoring_strategy promWorld).lookup "confidence" = some (.str "high") :=
  (c1_priority_first_probe_wins promWorld).2 (by decide)

/-- C2: when all eight probes fail, the resolver returns the fallback
decision: `monitorable = False`, strategy `None`, confidence `"none"`,
and the fixed ordered list of exactly four remediation suggestions. -/
theorem c2_all_probes_fail_fallback (w : World)
    (h1 : check_prometheus_metrics w = false)
    (h2 : check_prometheus_auth w = false)
    (h3 : check_otlp_http w = false)
    (h4 : check_otlp_grpc w = false)
    (h5 : check_statsd w = false)
    (h6 : detect_kubernetes_env (resolverHeaders w) = false)
    (h7 : detect_cloud_provider (resolverHeaders w) = none)
    (h8 : check_blackbox_http w = false) :
    detect_monitoring_strategy w = fallbackDecision ∧
    (detect_monitoring_strategy w).lookup "monitorable" = some (.bool false) ∧
    (detect_monitoring_strategy w).lookup "strategy" = some .none ∧
    (detect_monitoring_strategy w).lookup "confidence" = some (.str "none") ∧
    (detect_monitoring_strategy w).lookup "next_steps" = some (.list nextStepsList) ∧
    nextStepsList.length = 4 ∧ nextStepsList ≠ [] := by
  have hd : detect_monitoring_strategy w = fallbackDecision := by
    simp [detect_monitoring_strategy, h1, h2, h3, h4, h5, h6, h7, h8]
  exact ⟨hd, by rw [hd]; decide, by rw [hd]; decide, by rw [hd]; decide,
         by rw [hd]; decide, by decide, by decide⟩

/-- Witness for C2: the all-failures world yields the fallback decision. -/
theorem c2_all_probes_fail_fallback_witness :
    detect_monitoring_strategy allFailWorld = fallbackDecision ∧
    (detect_monitoring_strategy allFailWorld).lookup "next_steps" = some (.list nextStepsList) :=
  ⟨(c2_all_probes_fail_fallback allFailWorld rfl rfl rfl rfl rfl (by decide) (by decide) rfl).1,
   (c2_all_probes_fail_fallback allFailWorld rfl rfl rfl rfl rfl (by decide) (by decide) rfl).2.2.2.2.1⟩

/-- C3: every transport failure is folded into probe failure — a failed
request makes the corresponding probe return `False`, a failed exploratory
header GET degrades to empty headers in which no marker is found — and
for every combination of probe outcomes the resolution completes with one
of the eleven well-formed decisions (it never raises). -/
theorem c3_transport_failure_nonfatal (w : World) :
    (w.getMetricsProm = none → check_prometheus_metrics w = false) ∧
    (w.getMetricsAuth = none → check_prometheus_auth w = false) ∧
    (w.postTraces = none → w.postMetricsOtlp = none → check_otlp_http w = false) ∧
    (w.connect4317 = false → check_otlp_grpc w = false) ∧
    (w.connect8125 = false → check_statsd w = false) ∧
    (w.getBlackbox = none → check_blackbox_http w = false) ∧
    (w.getBase = none →
      resolverHeaders w = [] ∧
      detect_kubernetes_env (resolverHeaders w) = false ∧
      detect_cloud_provider (resolverHeaders w) = none) ∧
    detect_monitoring_strategy w ∈ allDecisions := by
  refine ⟨?_, ?_, ?_, ?_, ?_, ?_, ?_, detect_mem_allDecisions w⟩
  · intro h; simp [check_prometheus_metrics, h]
  · intro h; simp [check_prometheus_auth, h]
  · intro h h2; simp [check_otlp_http, h, h2]
  · intro h; simp [check_otlp_grpc, h]
  · intro h; simp [check_statsd, h]
  · intro h; simp [check_blackbox_http, h]
  · intro h
    have hr : resolverHeaders w = [] := by simp [resolverHeaders, h]
    refine ⟨hr, ?_, ?_⟩ <;> rw [hr] <;> decide

/-- Witness for C3: the all-failures world — every probe fails and the
resolution still returns a well-formed decision. -/
theorem c3_transport_failure_nonfatal_witness :
    check_prometheus_metrics allFailWorld = false ∧
    resolverHeaders allFailWorld = [] ∧
    detect_monitoring_strategy allFailWorld ∈ allDecisions :=
  ⟨(c3_transport_failure_nonfatal allFailWorld).1 rfl,
   ((c3_transport_failure_nonfatal allFailWorld).2.2.2.2.2.2.1 rfl).1,
   (c3_transport_failure_nonfatal allFailWorld).2.2.2.2.2.2.2⟩

/-- C4: data-model invariant of every returned decision — a string
strategy is present iff `monitorable = True`, confidence is `"none"` iff
the strategy is absent, and `next_steps` is present exactly when
`monitorable` is not `True`. -/
theorem c4_decision_invariant (w : World) :
    strategyPresent (detect_monitoring_strategy w) =
      monitorableFlag (detect_monitoring_strategy w) ∧
    confidenceIsNone (detect_monitoring_strategy w) =
      (!strategyPresent (detect_monitoring_strategy w)) ∧
    nextStepsPresent (detect_monitoring_strategy w) =
      (!monitorableFlag (detect_monitoring_strategy w)) := by
  have hm := detect_mem_allDecisions w
  simp only [allDecisions, List.mem_cons, List.not_mem_nil, or_false] at hm
  rcases hm with h|h|h|h|h|h|h|h|h|h|h <;> rw [h] <;> exact ⟨by decide, by decide, by decide⟩

/-- C5 (the claim is what the spec demands; this theorem documents what
the code actually does): for a malformed target — e.g. `http://` with no
host, where every network call raises — the resolver does not fail with
any `InvalidTarget` condition; it silently runs all probes and returns
the fallback decision. -/
theorem c5_malformed_target_falls_through :
    detect_monitoring_strategy allFailWorld = fallbackDecision ∧
    (detect_monitoring_strategy allFailWorld).lookup "monitorable" = some (.bool false) := by
  decide

/-- C6: for one fixed probe outcome observed on `GET (base)/metrics` by
both `/metrics` probes, the two success conditions (200-and-marker vs
401/403) are mutually exclusive, and whenever the prometheus probe
succeeds the resolver returns `prometheus` — never `prometheus-auth`. -/
theorem c6_metrics_probes_exclusive (resp : Option HttpResp) (w : World)
    (hm : w.getMetricsProm = resp) (ha : w.getMetricsAuth = resp) :
    (check_prometheus_metrics w && check_prometheus_auth w) = false ∧
    (check_prometheus_metrics w = true →
      (detect_monitoring_strategy w).lookup "strategy" = some (.str "prometheus") ∧
      (detect_monitoring_strategy w).lookup "strategy" ≠ some (.str "prometheus-auth")) := by
  constructor
  · cases resp with
    | none => simp [check_prometheus_metrics, check_prometheus_auth, hm, ha]
    | some r =>
        by_cases h200 : r.status = 200
        · simp [check_prometheus_metrics, check_prometheus_auth, hm, ha, h200]
        · simp [check_prometheus_metrics, check_prometheus_auth, hm, ha, h200]
  · intro h
    have hd : detect_monitoring_strategy w = promDecision := by
      simp [detect_monitoring_strategy, h]
    rw [hd]
    exact ⟨by decide, by decide⟩

/-- Witness for C6: a 200-and-marker outcome observed by both `/metrics`
probes. -/
theorem c6_metrics_probes_exclusive_witness :
    (check_prometheus_metrics promBothWorld && check_prometheus_auth promBothWorld) = false ∧
    (detect_monitoring_strategy promBothWorld).lookup "strategy" = some (.str "prometheus") :=
  ⟨(c6_metrics_probes_exclusive _ promBothWorld rfl rfl).1,
   ((c6_metrics_probes_exclusive _ promBothWorld rfl rfl).2 (by decide)).1⟩

/-- C7: the resolver is deterministic in its probe outcomes — two runs
observing the same header-fetch result and the same outcome of every
probe return equal decisions. -/
theorem c7_deterministic_in_outcomes (w1 w2 : World)
    (h1 : w1.getBase = w2.getBase)
    (h2 : w1.getMetricsProm = w2.getMetricsProm)
    (h3 : w1.getMetricsAuth = w2.getMetricsAuth)
    (h4 : w1.postTraces = w2.postTraces)
    (h5 : w1.postMetricsOtlp = w2.postMetricsOtlp)
    (h6 : w1.connect4317 = w2.connect4317)
    (h7 : w1.connect8125 = w2.connect8125)
    (h8 : w1.getBlackbox = w2.getBlackbox) :
    detect_monitoring_strategy w1 = detect_monitoring_strategy w2 := by
  cases w1
  cases w2
  dsimp only at h1 h2 h3 h4 h5 h6 h7 h8
  subst h1; subst h2; subst h3; subst h4; subst h5; subst h6; subst h7; subst h8
  rfl

/-- Witness for C7: two observations of the same outcomes. -/
theorem c7_deterministic_in_outcomes_witness :
    detect_monitoring_strategy promWorld = detect_monitoring_strategy promWorld :=
  c7_deterministic_in_outcomes promWorld promWorld rfl rfl rfl rfl rfl rfl rfl rfl

/-- C8 counterexample: saving the prometheus decision over a previously
saved fallback decision does NOT overwrite the record — the fallback
decision's `next_steps` field survives, so the fetch does not return
exactly the second decision. -/
theorem c8_overwrite_counterexample :
    get_monitoring_strategy
        (save_monitoring_strategy
          (save_monitoring_strategy [] fallbackDecision) promDecision) ≠
      some promDecision ∧
    ((get_monitoring_strategy
        (save_monitoring_strategy
          (save_monitoring_strategy [] fallbackDecision) promDecision)).getD []).lookup
        "next_steps" ≠ none ∧
    promDecision.lookup "next_steps" = none := by
  decide

/-- C8 amended: the record is created by the first save; a subsequent
save for the same key performs a Redis `HSET` field-level upsert rather
than a replacement — on every field, the fetched record carries the
second decision's (decoded) value when the second decision has that
field, and otherwise the surviving value of the first decision. -/
theorem c8_save_is_field_level_upsert (d1 d2 : List (String × PyVal)) (f : String)
    (hnd1 : (d1.map Prod.fst).Nodup) (hnd2 : (d2.map Prod.fst).Nodup) :
    (save_monitoring_strategy [] d1).lookup f = (_serialize_strategy d1).lookup f ∧
    (save_monitoring_strategy (save_monitoring_strategy [] d1) d2).lookup f =
      (((_serialize_strategy d2).lookup f).orElse fun _ =>
        (_serialize_strategy d1).lookup f) ∧
    ((get_monitoring_strategy
        (save_monitoring_strategy (save_monitoring_strategy [] d1) d2)).getD []).lookup f =
      ((save_monitoring_strategy (save_monitoring_strategy [] d1) d2).lookup f).map
        deserializeVal := by
  have hk1 : ((_serialize_strategy d1).map Prod.fst).Nodup := by
    rw [serialize_keys]; exact hnd1
  have hk2 : ((_serialize_strategy d2).map Prod.fst).Nodup := by
    rw [serialize_keys]; exact hnd2
  have hfirst : (save_monitoring_strategy [] d1).lookup f =
      (_serialize_strategy d1).lookup f := by
    rw [save_monitoring_strategy, lookup_hsetMapping _ _ _ hk1]
    cases (_serialize_strategy d1).lookup f <;> simp [Option.orElse]
  refine ⟨hfirst, ?_, ?_⟩
  · rw [save_monitoring_strategy, lookup_hsetMapping _ _ _ hk2, hfirst]
  · rw [get_monitoring_strategy]
    split
    · next hemp =>
        rw [List.isEmpty_iff] at hemp
        simp [hemp]
    · simp [lookup_map_decode]

/-- Witness for C8 (amended): the concrete pair of decisions of the
counterexample — the surviving `next_steps` value is exactly the one the
upsert semantics predicts. -/
theorem c8_save_is_field_level_upsert_witness :
    (save_monitoring_strategy
        (save_monitoring_strategy [] fallbackDecision) promDecision).lookup "next_steps" =
      (((_serialize_strategy promDecision).lookup "next_steps").orElse fun _ =>
        (_serialize_strategy fallbackDecision).lookup "next_steps") :=
  (c8_save_is_field_level_upsert fallbackDecision promDecision "next_steps"
    (by decide) (by decide)).2.1

/-- C10: every monitorable decision the resolver produces survives the
round trip through `save_monitoring_strategy` under a fresh key and
`get_monitoring_strategy`: the boolean survives the `"True"` string
encoding and the strategy, confidence and details strings come back
unchanged. -/
theorem c10_roundtrip_monitorable (w : World)
    (h : (detect_monitoring_strategy w).lookup "monitorable" = some (.bool true)) :
    get_monitoring_strategy
        (save_monitoring_strategy [] (detect_monitoring_strategy w)) =
      some (detect_monitoring_strategy w) := by
  have hm := detect_mem_allDecisions w
  simp only [allDecisions, List.mem_cons, List.not_mem_nil, or_false] at hm
  rcases hm with hd|hd|hd|hd|hd|hd|hd|hd|hd|hd|hd <;> rw [hd] at h ⊢ <;>
    first
    | decide
    | exact absurd h (by decide)

/-- Witness for C10: the prometheus decision round-trips. -/
theorem c10_roundtrip_monitorable_witness :
    get_monitoring_strategy
        (save_monitoring_strategy [] (detect_monitoring_strategy promWorld)) =
      some (detect_monitoring_strategy promWorld) :=
  c10_roundtrip_monitorable promWorld (by decide)

/-- An effect environment where the config read, the write and the 200
reload all succeed. -/
def promOkEffects : PromWorld := ⟨true, true, some 200⟩

/-- The scrape config generated for hostname `svc` without auth. -/
def autoJobCfg : ScrapeConfig := ⟨"auto_svc", "/metrics", ["svc"], false⟩

/-- C9: the scrape-config mutation is a no-op returning `False` on a
duplicate generated job name; otherwise a successful write appends
exactly the new job; the success flag is `True` exactly when the read,
the duplicate check, the write and the 200 reload all pass, so every
failure along the path (I/O or reload) is surfaced in the returned flag
and not raised; the config resource ends up either unchanged or with
exactly the one new job appended; and `configure_prometheus_scrape`
builds the `auto_(hostname)` job and feeds it to the mutation. -/
theorem c9_scrape_job_contract (pw : PromWorld) (file : List JobEntry)
    (sc : ScrapeConfig) (hostname : Option String) (auth : Bool) :
    ((file.map JobEntry.job_name).contains sc.job_name = true → pw.readOk = true →
      add_prometheus_scrape_job pw file sc = (false, file)) ∧
    ((add_prometheus_scrape_job pw file sc).1 = true ↔
      (pw.readOk = true ∧ (file.map JobEntry.job_name).contains sc.job_name = false ∧
       pw.writeOk = true ∧ pw.reloadResp = some 200)) ∧
    ((add_prometheus_scrape_job pw file sc).2 = file ∨
      (add_prometheus_scrape_job pw file sc).2 = file ++ [mkJobEntry sc]) ∧
    (pw.readOk = true → (file.map JobEntry.job_name).contains sc.job_name = false →
      pw.writeOk = true →
      (add_prometheus_scrape_job pw file sc).2 = file ++ [mkJobEntry sc]) ∧
    ((configure_prometheus_scrape pw file hostname auth).1.job_name =
      "auto_" ++ (match hostname with | some hn => hn | Option.none => "None")) ∧
    ((configure_prometheus_scrape pw file hostname auth).2 =
      add_prometheus_scrape_job pw file (configure_prometheus_scrape pw file hostname auth).1) := by
  obtain ⟨ro, wo, rr⟩ := pw
  refine ⟨?_, ?_, ?_, ?_, ?_, ?_⟩
  · intro hdup hro
    simp only at hro
    subst hro
    simp only [add_prometheus_scrape_job, hdup]
    simp
  · simp only [add_prometheus_scrape_job]
    cases ro <;> cases wo <;>
      cases hdup : (file.map JobEntry.job_name).contains sc.job_name <;>
      rcases rr with _ | n
    all_goals try simp
    all_goals (by_cases hn : n = 200 <;> simp [hn])
  · simp only [add_prometheus_scrape_job]
    cases ro <;> cases wo <;>
      cases hdup : (file.map JobEntry.job_name).contains sc.job_name <;>
      rcases rr with _ | n
    all_goals try simp
    all_goals (by_cases hn : n = 200 <;> simp [hn])
  · intro hro hdup hwo
    simp only at hro hwo
    subst hro; subst hwo
    simp only [add_prometheus_scrape_job, hdup]
    rcases rr with _ | n
    · simp
    · by_cases hn : n = 200 <;> simp [hn]
  · cases hostname <;> rfl
  · rfl

/-- Witness for C9: fresh job, successful read, write and reload — the
flag is `True` and the job is appended. -/
theorem c9_scrape_job_contract_witness :
    (add_prometheus_scrape_job promOkEffects [] autoJobCfg).1 = true ∧
    (add_prometheus_scrape_job promOkEffects [] autoJobCfg).2 = [] ++ [mkJobEntry autoJobCfg] :=
  ⟨(c9_scrape_job_contract promOkEffects [] autoJobCfg (some "svc") false).2.1.mpr
      ⟨rfl, by decide, rfl, rfl⟩,
   (c9_scrape_job_contract promOkEffects [] autoJobCfg (some "svc") false).2.2.2.1
      rfl (by decide) rfl⟩

end AutoOnboard
